import Mathlib

/-!
Verification of the ReadifyFont Qt front end (`src/ReadifyFont-Qt.py`).

The GUI class `RF_Qt` is shallowly embedded as a pure state-transition
system: widget state and the shared `FontInfo` configuration object become
record fields, every Qt slot (signal handler) becomes a function
`State → ... → State`, and user interactions / process events become an
`Event` inductive folded over by `run`.  Dialog results (file pickers,
directory pickers) are passed in as parameters, since they are external
inputs.  The classes `FontInfo` and `helper` are imported by the GUI module
but their sources are not part of this tree; the few members the GUI calls
(`helper.which`, `helper.valid_filename`, `FontInfo.gen_cli_command` and the
`FontInfo` defaults) are modelled from the specification and marked as such
in their doc comments.
-/

namespace ReadifyFont

/-! ### Combo-box selection indices (src lines 17-21) -/

def SEL_REGULAR : Nat := 1

def SEL_ITALIC : Nat := 2

def SEL_BOLD : Nat := 3

def SEL_BOLDITALIC : Nat := 4

def SEL_NONE : Nat := 0

/-! ### String helpers

Python `str.lower()` and the `in` substring test, restricted (as in the
source's usage) to ASCII filenames, and `os.path.split` on POSIX paths. -/

/-- Character list of a string, lower-cased: models `s.lower()` for the
ASCII filenames the GUI handles. -/
def lowerData (s : String) : List Char := s.data.map Char.toLower

/-- Executable substring test on character lists: `hasSubstr p l` holds
when `p` occurs contiguously inside `l`. -/
def hasSubstr (p : List Char) : List Char → Bool
  | [] => p.isEmpty
  | c :: rest => p.isPrefixOf (c :: rest) || hasSubstr p rest

/-- Models the Python substring test `pat in s.lower()` (the pattern
literals in the source are already lower case). -/
def strIn (pat s : String) : Bool := hasSubstr pat.data (lowerData s)

/-- Models `os.path.normpath`.  Path normalisation (collapsing `.`/`..`
segments and duplicate separators) is orthogonal to every property proved
in this file, so it is modelled as the identity on paths. -/
def normpath (p : String) : String := p

/-- Models `os.path.split` on POSIX paths: splits at the last separator,
returning the directory part and the filename component. -/
def os_path_split (p : String) : String × String :=
  let fn := (p.data.reverse.takeWhile (fun c => c ≠ '/')).reverse
  (⟨p.data.take (p.data.length - fn.length)⟩, ⟨fn⟩)

/-- The per-file style classification performed in `load_fonts`
(src lines 342-349) on the filename component.  Before this loop runs, all
four combo boxes have been reset to `SEL_NONE` (src lines 327-330), which
is why a filename matching no token yields `SEL_NONE`. -/
def classifyFile (f_file : String) : Nat :=
  if strIn "regular" f_file then SEL_REGULAR
  else if strIn "bold" f_file && strIn "italic" f_file then SEL_BOLDITALIC
  else if strIn "bold" f_file then SEL_BOLD
  else if strIn "italic" f_file then SEL_ITALIC
  else SEL_NONE

/-! ### Data model

One row of the font-file grid (a `QLabel` plus its style `QComboBox`,
src lines 62-76), and the shared `FontInfo` configuration object. -/

structure GuiFileRow where
  label : String
  styleIdx : Nat
  enabled : Bool
deriving DecidableEq

/-- The reset value of a grid row (src lines 63-67 and 327-330): label
text restored, combo index `SEL_NONE`, combo disabled. -/
def initRow : GuiFileRow := ⟨"Load font file...", SEL_NONE, false⟩

/-- Modelled from the spec: the class `FontInfo` is imported from
`FontInfo.py`, which is not part of this tree.  Its fields are exactly the
attributes the GUI code assigns (`font_name`, `leg_kern`, `strip_panose`,
`name_hack`, `change_hint`, `add_weight`, `mod_bearings`, `out_dir`,
`font_file_reg`, `font_file_it`, `font_file_bd`, `font_file_bi`); defaults
follow spec section 3 (boolean flags false, no files assigned, no output
directory, empty family name). -/
structure FontInfo where
  font_name : String := ""
  leg_kern : Bool := false
  strip_panose : Bool := false
  name_hack : Bool := false
  change_hint : String := "keep"
  add_weight : Nat := 0
  mod_bearings : Bool := false
  out_dir : String := ""
  font_file_reg : Option String := none
  font_file_it : Option String := none
  font_file_bd : Option String := none
  font_file_bi : Option String := none
deriving DecidableEq

/-- The `QProcess` lifecycle states used by `manage_proc`. -/
inductive QProcState where
  | notRunning
  | starting
  | running
deriving DecidableEq

/-- The observable state of the `RF_Qt` window: the font-file grid rows,
the list of selected font files, the shared `FontInfo` object, the family
name line edit, widget enabled/checked flags, the cached fontforge path,
the log window content (one entry per appended chunk) and the state of the
single `QProcess` instance together with the last command handed to
`QProcess.start`. -/
structure State where
  rows : List GuiFileRow
  font_files : List String
  font_info : FontInfo
  new_fnt_name : String
  gen_btn : Bool
  darken_opt : Bool
  mod_bearing_chk : Bool
  mod_bearing_enabled : Bool
  slider : Nat
  slider_enabled : Bool
  darken_amount_lab : String
  ff_path : String
  log_win : List String
  proc : QProcState
  cmd : Option (String × List String)
deriving DecidableEq

/-! ### Functions modelled from the spec (module `helper` is not in src/) -/

/-- Modelled from the spec: `helper.valid_filename` is not under src/.
Per spec section 4.2 the name validator rejects the empty string, strings
containing a filesystem-reserved character and whitespace-only strings. -/
def valid_filename (name : String) : Bool :=
  name ≠ "" && name.data.any (fun c => !c.isWhitespace) &&
    name.data.all (fun c => !(['/', '\\', ':', '*', '?', '"', '<', '>', '|'].contains c))

/-- Modelled from the spec: `helper.which` is not under src/.  Per spec
section 4.4 it searches the environment's executable search path for the
tool's known name; the search path is abstracted as an association list
from tool names to resolved paths. -/
def which (env : List (String × String)) (name : String) : Option String :=
  (env.find? (fun e => e.1 = name)).map (fun e => e.2)

/-! ### Signal handlers (Qt slots), translated from `RF_Qt` -/

/-- `set_ff_path` (src lines 221-231): shows a file dialog and, when the
user picked a path (non-empty result), stores its normalised form as the
fontforge path.  No executability check is performed. -/
def set_ff_path (st : State) (dialog : String) : State :=
  if dialog ≠ "" then { st with ff_path := normpath dialog } else st

/-- `set_family_name` (src lines 253-267): records a valid non-empty name
in `font_info` and enables the generate button when files are loaded;
disables the button on an empty or invalid name.  Note the source has no
else-branch for a valid name without loaded files: the button keeps its
previous state there. -/
def set_family_name (st : State) (name : String) : State :=
  let st1 := { st with new_fnt_name := name }
  if name ≠ "" then
    if valid_filename name then
      let st2 := { st1 with font_info := { st1.font_info with font_name := name } }
      if st2.font_files ≠ [] then { st2 with gen_btn := true } else st2
    else { st1 with gen_btn := false }
  else { st1 with gen_btn := false }

/-- `set_darken_amount` (src lines 269-276): updates the amount label and
stores the amount in `font_info.add_weight`. -/
def set_darken_amount (st : State) (amount : Nat) : State :=
  { st with darken_amount_lab := toString amount,
            font_info := { st.font_info with add_weight := amount } }

/-- `set_darken_opt` (src lines 292-308): reads the darken checkbox.  When
checked it enables the bearing checkbox and the slider and pushes the
slider value into `font_info`; when unchecked it disables those widgets
(which does not change their checked state) and pushes amount 0. -/
def set_darken_opt (st : State) : State :=
  if st.darken_opt then
    set_darken_amount
      { st with mod_bearing_enabled := true, slider_enabled := true } st.slider
  else
    set_darken_amount
      { st with mod_bearing_enabled := false, slider_enabled := false } 0

/-- `set_mod_bearing` (src lines 310-318): copies the bearing checkbox
state into `font_info.mod_bearings`. -/
def set_mod_bearing (st : State) : State :=
  { st with font_info := { st.font_info with mod_bearings := st.mod_bearing_chk } }

/-- A user click on the darken checkbox: Qt toggles the checked state and
then emits `toggled`, which runs `set_darken_opt` (src line 145). -/
def click_darken (st : State) : State :=
  set_darken_opt { st with darken_opt := !st.darken_opt }

/-- A user click on the bearing checkbox (src line 152).  A disabled
widget ignores clicks, so the toggle only happens while enabled. -/
def click_mod_bearing (st : State) : State :=
  if st.mod_bearing_enabled then
    set_mod_bearing { st with mod_bearing_chk := !st.mod_bearing_chk }
  else st

/-- The grid rows produced by `load_fonts` (src lines 327-349): all four
rows are first reset to `initRow`, then `zip` walks the filename list and
the four row widgets in parallel — so exactly the first
`min (number of files) 4` rows receive a label, an enabled combo box and
the classified style index; remaining rows stay reset. -/
def rowsAfterLoad (names : List String) : List GuiFileRow :=
  (names.take 4).map (fun n => ⟨n, classifyFile n, true⟩) ++
    List.replicate (4 - (names.take 4).length) initRow

/-- `load_fonts` (src lines 320-352) with the file-dialog result passed in
as `paths`.  On a non-empty selection it stores the full selection in
`font_files`, rebuilds the grid rows from the filename components, and
enables the generate button when the family-name field is non-empty
(without re-running the name validator). -/
def load_fonts (st : State) (paths : List String) : State :=
  if paths ≠ [] then
    let names := paths.map (fun f => (os_path_split (normpath f)).2)
    let st1 := { st with font_files := paths, rows := rowsAfterLoad names }
    if st1.new_fnt_name ≠ "" then { st1 with gen_btn := true } else st1
  else st

/-! ### Output log and progress bar (`read_proc_output`, `manage_proc`) -/

/-- `read_proc_output` (src lines 354-363) restricted to the log content:
the chunk currently available on the merged output channel is appended to
the log window (`QTextEdit.append`, one entry per delivered chunk). -/
def read_proc_output (log : List String) (output : String) : List String :=
  log ++ [output]

/-- Delivery of a whole sequence of merged-channel chunks: each `readyRead`
emission runs `read_proc_output` on the chunk that became available. -/
def deliver (log : List String) (chunks : List String) : List String :=
  chunks.foldl read_proc_output log

/-- The progress bar (`QProgressBar`): its range and current value. -/
structure ProgBar where
  lo : Nat
  hi : Nat
  val : Nat
deriving DecidableEq

/-- `manage_proc` (src lines 365-375): the single slot connected to the
`started`, `finished` and `error` signals.  It inspects only
`proc.state()`: while the process runs the bar becomes indeterminate
(range 0-0); once it is not running the bar is set to range 0-100 at
value 100. -/
def manage_proc (procState : QProcState) (bar : ProgBar) : ProgBar :=
  let bar1 := if procState = QProcState.running then { bar with lo := 0, hi := 0 } else bar
  if procState = QProcState.notRunning then { lo := 0, hi := 100, val := 100 } else bar1

/-- The handler run when the child process emits `finished (exitCode)`
(connected at src line 47).  `manage_proc` takes no signal parameters, so
the exit code carried by the signal is never read; by the time the slot
runs the process state is `NotRunning`. -/
def on_finished (_exitCode : Int) (bar : ProgBar) : ProgBar :=
  manage_proc QProcState.notRunning bar

/-! ### Generation (`gen_ttf`) -/

/-- One iteration of the assignment loop in `gen_ttf` (src lines 403-411):
a (file, combo-index) pair writes the file into the `FontInfo` field for
the selected style; `SEL_NONE` writes nothing. -/
def assign_step (fi : FontInfo) (p : String × Nat) : FontInfo :=
  if p.2 = SEL_REGULAR then { fi with font_file_reg := some p.1 }
  else if p.2 = SEL_BOLDITALIC then { fi with font_file_bi := some p.1 }
  else if p.2 = SEL_BOLD then { fi with font_file_bd := some p.1 }
  else if p.2 = SEL_ITALIC then { fi with font_file_it := some p.1 }
  else fi

/-- The full assignment loop of `gen_ttf`: `zip(self.font_files,
self.fnt_sty_combo_list)` walked left to right. -/
def assign_files (fi : FontInfo) (pairs : List (String × Nat)) : FontInfo :=
  pairs.foldl assign_step fi

/-- An argument pair `--<slot>-file <path>` for an assigned style slot,
omitted entirely when the slot has no file. -/
def fileArgs (flag : String) (file : Option String) : List String :=
  match file with
  | some p => [flag, p]
  | none => []

/-- The hint-mode flag, exactly one of the three. -/
def hintArg (h : String) : List String :=
  if h = "keep" then ["--hint-keep"]
  else if h = "remove" then ["--hint-remove"]
  else ["--hint-auto"]

/-- The darken section of the command.  The GUI encodes "darkening
disabled" by pushing amount 0 into `add_weight` (src lines 303-308), so a
zero weight emits nothing: the amount is absent from the command, and
`--fix-bearings` can only follow a `--darken`. -/
def darkenArgs (fi : FontInfo) : List String :=
  if fi.add_weight ≠ 0 then
    ["--darken", toString fi.add_weight] ++
      (if fi.mod_bearings then ["--fix-bearings"] else [])
  else []

/-- Modelled from the spec: `FontInfo.gen_cli_command` lives in
`FontInfo.py`, which is not under src/.  The ordering follows spec
section 4.3: family name; one `--<slot>-file path` pair per assigned slot
in slot order; one flag per enabled boolean option; the hint-mode flag;
the darken section; the output directory.  `gen_ttf` guarantees `out_dir`
is set before this is called, so the builder emits it unconditionally. -/
def FontInfo.gen_cli_command (fi : FontInfo) : List String :=
  [fi.font_name]
  ++ fileArgs "--regular-file" fi.font_file_reg
  ++ fileArgs "--italic-file" fi.font_file_it
  ++ fileArgs "--bold-file" fi.font_file_bd
  ++ fileArgs "--bolditalic-file" fi.font_file_bi
  ++ (if fi.leg_kern then ["--legacy-kerning"] else [])
  ++ (if fi.strip_panose then ["--strip-panose"] else [])
  ++ (if fi.name_hack then ["--alt-name"] else [])
  ++ hintArg fi.change_hint
  ++ darkenArgs fi
  ++ ["--out-dir", fi.out_dir]

/-- The strings a configuration contributes verbatim to the command (as
opposed to the fixed flag literals). -/
def FontInfo.freeStrings (fi : FontInfo) : List String :=
  fi.font_name ::
    ([fi.font_file_reg, fi.font_file_it, fi.font_file_bd, fi.font_file_bi].filterMap id
      ++ [fi.out_dir])

/-- `QProcess.start` (src line 414), per Qt semantics: starting a
`QProcess` object that is already running a process leaves the existing
process running unaffected and does nothing; otherwise the process enters
the `Starting` state with the given program and argument list. -/
def proc_start (st : State) (prog : String) (args : List String) : State :=
  if st.proc = QProcState.notRunning then
    { st with proc := QProcState.starting, cmd := some (prog, args) }
  else st

/-- `gen_ttf` (src lines 377-414) with the two dialog results passed in:
`ff_dialog` is what the fontforge locator dialog would return (used only
when no fontforge path is cached) and `dir_dialog` the save-directory
dialog result.  The handler clears the log window first, then resolves the
fontforge path, then the save directory (both `'.'` and the empty string
mean the dialog was cancelled and abort the handler), then runs the
assignment loop, builds the command and hands it to `QProcess.start`.  The
two save-directory branches of the source differ only in the dialog's
initial directory, which is presentation-only, so they collapse here. -/
def gen_ttf (st : State) (ff_dialog dir_dialog : String) : State :=
  let st1 := { st with log_win := [] }
  let st2 := if st1.ff_path = "" then set_ff_path st1 ff_dialog else st1
  if st2.ff_path = "" then st2
  else
    let save_dir := normpath dir_dialog
    if save_dir = "." ∨ save_dir = "" then st2
    else
      let st3 := { st2 with font_info := { st2.font_info with out_dir := save_dir } }
      let fi := assign_files st3.font_info
        (st3.font_files.zip (st3.rows.map GuiFileRow.styleIdx))
      let st4 := { st3 with font_info := fi }
      proc_start st4 st4.ff_path fi.gen_cli_command

/-! ### Sessions: events folded over the handlers -/

/-- The slider is constrained to the range 1-50 (src lines 160-161). -/
def sliderClamp (v : Nat) : Nat := max 1 (min v 50)

/-- The discrete inputs a session can receive: user interactions on the
widgets (with dialog results passed along) and the asynchronous process
signals. -/
inductive Event where
  | editName (name : String)
  | loadFonts (paths : List String)
  | clickDarken
  | clickModBearing
  | moveSlider (v : Nat)
  | clickGen (ffDialog dirDialog : String)
  | procStarted
  | readyRead (chunk : String)
  | procFinished (code : Int)

/-- Dispatch one event to its handler.  Disabled widgets ignore input
(slider, generate button); `procStarted` and `procFinished` track the
`QProcess` lifecycle, and `readyRead` appends the available merged-channel
chunk to the log window. -/
def step (st : State) (e : Event) : State :=
  match e with
  | .editName n => set_family_name st n
  | .loadFonts ps => load_fonts st ps
  | .clickDarken => click_darken st
  | .clickModBearing => click_mod_bearing st
  | .moveSlider v =>
      if st.slider_enabled then
        set_darken_amount { st with slider := sliderClamp v } (sliderClamp v)
      else st
  | .clickGen d1 d2 => if st.gen_btn then gen_ttf st d1 d2 else st
  | .procStarted =>
      if st.proc = QProcState.starting then { st with proc := QProcState.running } else st
  | .readyRead c => { st with log_win := read_proc_output st.log_win c }
  | .procFinished _ => { st with proc := QProcState.notRunning }

/-- A session: fold the event sequence over the handlers. -/
def run (st : State) (es : List Event) : State := es.foldl step st

/-- The state built by `RF_Qt.__init__` (src lines 29-219): four reset
grid rows, no files, default `FontInfo` with hint mode "keep" (the radio
button checked at line 133 fires `set_hint`), empty name, generate button
disabled, darken widgets unchecked/disabled, slider at 12, empty log, no
process.  Finally the fontforge path is looked up once with
`helper.which` and, only when that fails, requested from the user via
`set_ff_path` (src lines 216-219). -/
def init_state (env : List (String × String)) (ff_dialog : String) : State :=
  let st : State :=
    { rows := [initRow, initRow, initRow, initRow], font_files := [],
      font_info := {}, new_fnt_name := "", gen_btn := false,
      darken_opt := false, mod_bearing_chk := false, mod_bearing_enabled := false,
      slider := 12, slider_enabled := false, darken_amount_lab := "12",
      ff_path := (which env "fontforge").getD "", log_win := [],
      proc := QProcState.notRunning, cmd := none }
  if st.ff_path = "" then set_ff_path st ff_dialog else st

/-! ### Helper lemmas -/

theorem rowsAfterLoad_styles (names : List String) :
    (rowsAfterLoad names).map GuiFileRow.styleIdx
      = (names.take 4).map classifyFile
        ++ List.replicate (4 - (names.take 4).length) SEL_NONE := by
  simp only [rowsAfterLoad, initRow, SEL_NONE, List.map_append, List.map_map,
    List.map_replicate, List.map_take]
  rfl

theorem rowsAfterLoad_length (names : List String) :
    (rowsAfterLoad names).length = 4 := by
  simp only [rowsAfterLoad, List.length_append, List.length_map, List.length_replicate,
    List.length_take]
  omega

theorem rowsAfterLoad_take (names : List String) :
    rowsAfterLoad (names.take 4) = rowsAfterLoad names := by
  simp [rowsAfterLoad, List.take_take]

/-- Closed form of `load_fonts` on a non-empty selection. -/
theorem load_fonts_eq (st : State) (paths : List String) (h : paths ≠ []) :
    load_fonts st paths
      = { st with
            font_files := paths,
            rows := rowsAfterLoad (paths.map (fun f => (os_path_split (normpath f)).2)),
            gen_btn := if st.new_fnt_name ≠ "" then true else st.gen_btn } := by
  unfold load_fonts
  rw [if_pos h]
  by_cases hn : st.new_fnt_name ≠ "" <;> simp [hn]

theorem zip_take_len {α β : Type} : ∀ (xs : List α) (ys : List β),
    (xs.take ys.length).zip ys = xs.zip ys
  | [], _ => by simp
  | _ :: _, [] => by simp
  | x :: xs, y :: ys => by simp [zip_take_len xs ys]

theorem assign_step_add_weight (fi : FontInfo) (p : String × Nat) :
    (assign_step fi p).add_weight = fi.add_weight := by
  unfold assign_step
  split_ifs <;> rfl

theorem assign_step_mod_bearings (fi : FontInfo) (p : String × Nat) :
    (assign_step fi p).mod_bearings = fi.mod_bearings := by
  unfold assign_step
  split_ifs <;> rfl

theorem assign_files_add_weight : ∀ (pairs : List (String × Nat)) (fi : FontInfo),
    (assign_files fi pairs).add_weight = fi.add_weight
  | [], _ => rfl
  | p :: ps, fi => by
      rw [assign_files, List.foldl_cons, ← assign_files,
        assign_files_add_weight ps, assign_step_add_weight]

theorem assign_files_mod_bearings : ∀ (pairs : List (String × Nat)) (fi : FontInfo),
    (assign_files fi pairs).mod_bearings = fi.mod_bearings
  | [], _ => rfl
  | p :: ps, fi => by
      rw [assign_files, List.foldl_cons, ← assign_files,
        assign_files_mod_bearings ps, assign_step_mod_bearings]

theorem assign_step_out_dir (fi : FontInfo) (p : String × Nat) :
    (assign_step fi p).out_dir = fi.out_dir := by
  unfold assign_step
  split_ifs <;> rfl

theorem assign_files_out_dir : ∀ (pairs : List (String × Nat)) (fi : FontInfo),
    (assign_files fi pairs).out_dir = fi.out_dir
  | [], _ => rfl
  | p :: ps, fi => by
      rw [assign_files, List.foldl_cons, ← assign_files,
        assign_files_out_dir ps, assign_step_out_dir]

theorem mem_fileArgs {x flag : String} {o : Option String} (h : x ∈ fileArgs flag o) :
    x = flag ∨ o = some x := by
  cases o <;> simp_all [fileArgs, eq_comm]

theorem mem_hintArg {x h : String} (hx : x ∈ hintArg h) :
    x = "--hint-keep" ∨ x = "--hint-remove" ∨ x = "--hint-auto" := by
  unfold hintArg at hx
  split_ifs at hx <;> simp_all

/-- With a zero weight the darken section is empty. -/
theorem darkenArgs_zero {fi : FontInfo} (h0 : fi.add_weight = 0) :
    darkenArgs fi = [] := by
  simp [darkenArgs, h0]

/-- With a zero weight, every string of the built command is either one of
the fixed flag literals below or contributed verbatim by the
configuration; in particular no darken flags can appear unless the
configuration itself contains them as data. -/
theorem gen_cli_mem_no_darken (fi : FontInfo) (h0 : fi.add_weight = 0) (x : String)
    (hx : x ∈ fi.gen_cli_command) :
    x ∈ ["--regular-file", "--italic-file", "--bold-file", "--bolditalic-file",
      "--legacy-kerning", "--strip-panose", "--alt-name",
      "--hint-keep", "--hint-remove", "--hint-auto", "--out-dir"]
    ∨ x ∈ fi.freeStrings := by
  unfold FontInfo.gen_cli_command at hx
  rw [darkenArgs_zero h0] at hx
  simp only [List.mem_append, List.mem_cons, List.not_mem_nil, or_false,
    List.mem_singleton, or_assoc] at hx
  unfold FontInfo.freeStrings
  rcases hx with h | h | h | h | h | h | h | h | h | h | h
  · subst h; simp
  · rcases mem_fileArgs h with h | h
    · subst h; simp
    · simp [h]
  · rcases mem_fileArgs h with h | h
    · subst h; simp
    · simp [h]
  · rcases mem_fileArgs h with h | h
    · subst h; simp
    · simp [h]
  · rcases mem_fileArgs h with h | h
    · subst h; simp
    · simp [h]
  · split_ifs at h <;> simp_all
  · split_ifs at h <;> simp_all
  · split_ifs at h <;> simp_all
  · rcases mem_hintArg h with h | h | h <;> subst h <;> simp
  · subst h; simp
  · subst h; simp

/-- `gen_ttf` never changes the darken-related widget state nor the
stored weight and bearing flags. -/
theorem gen_ttf_darken_fields (st : State) (d1 d2 : String) :
    (gen_ttf st d1 d2).darken_opt = st.darken_opt
    ∧ (gen_ttf st d1 d2).slider_enabled = st.slider_enabled
    ∧ (gen_ttf st d1 d2).font_info.add_weight = st.font_info.add_weight
    ∧ (gen_ttf st d1 d2).font_info.mod_bearings = st.font_info.mod_bearings
    ∧ (gen_ttf st d1 d2).gen_btn = st.gen_btn
    ∧ (gen_ttf st d1 d2).new_fnt_name = st.new_fnt_name
    ∧ (gen_ttf st d1 d2).rows = st.rows
    ∧ (gen_ttf st d1 d2).font_files = st.font_files := by
  obtain ⟨rows, ffs, fi, name, btn, dop, mbc, mbe, sl, sle, lab, ffp, log, prc, c⟩ := st
  unfold gen_ttf set_ff_path proc_start
  by_cases h1 : ffp = "" <;> by_cases h2 : d1 ≠ "" <;>
    simp only [h1, h2, ite_true, ite_false, not_true, not_false_iff, if_pos, if_neg,
      ne_eq, not_not] <;>
    (try split_ifs) <;>
    simp_all [assign_files_add_weight, assign_files_mod_bearings]

/-- The darken invariant maintained by the handlers: whenever the darken
checkbox is unchecked, the stored weight is zero and the amount slider is
disabled. -/
def darkenInv (st : State) : Prop :=
  st.darken_opt = false → (st.font_info.add_weight = 0 ∧ st.slider_enabled = false)

theorem darkenInv_congr (a b : State) (h1 : a.darken_opt = b.darken_opt)
    (h2 : a.font_info.add_weight = b.font_info.add_weight)
    (h3 : a.slider_enabled = b.slider_enabled) (h : darkenInv b) : darkenInv a := by
  unfold darkenInv at h ⊢
  rw [h1, h2, h3]
  exact h

theorem set_family_name_darken (st : State) (n : String) :
    (set_family_name st n).darken_opt = st.darken_opt
    ∧ (set_family_name st n).font_info.add_weight = st.font_info.add_weight
    ∧ (set_family_name st n).slider_enabled = st.slider_enabled := by
  unfold set_family_name
  by_cases h1 : n = "" <;> by_cases h2 : valid_filename n <;>
    by_cases h3 : st.font_files = [] <;> simp [h1, h2, h3]

theorem load_fonts_darken (st : State) (ps : List String) :
    (load_fonts st ps).darken_opt = st.darken_opt
    ∧ (load_fonts st ps).font_info.add_weight = st.font_info.add_weight
    ∧ (load_fonts st ps).slider_enabled = st.slider_enabled := by
  unfold load_fonts
  by_cases h1 : ps = [] <;> by_cases h2 : st.new_fnt_name = "" <;> simp [h1, h2]

theorem darkenInv_step (st : State) (e : Event) (h : darkenInv st) :
    darkenInv (step st e) := by
  cases e with
  | editName n =>
      obtain ⟨e1, e2, e3⟩ := set_family_name_darken st n
      exact darkenInv_congr _ st e1 e2 e3 h
  | loadFonts ps =>
      obtain ⟨e1, e2, e3⟩ := load_fonts_darken st ps
      exact darkenInv_congr _ st e1 e2 e3 h
  | clickDarken =>
      simp only [darkenInv] at h ⊢
      simp only [step]
      unfold click_darken set_darken_opt set_darken_amount
      cases hdo : st.darken_opt <;> simp [hdo]
  | clickModBearing =>
      refine darkenInv_congr _ st ?_ ?_ ?_ h <;>
        · simp only [step]
          unfold click_mod_bearing set_mod_bearing
          split_ifs <;> rfl
  | moveSlider v =>
      by_cases hs : st.slider_enabled
      · simp only [darkenInv] at h ⊢
        simp only [step, if_pos hs]
        unfold set_darken_amount
        exact fun hd => absurd (h hd).2 (by simp [hs])
      · refine darkenInv_congr _ st ?_ ?_ ?_ h <;> simp [step, hs]
  | clickGen d1 d2 =>
      by_cases hg : st.gen_btn
      · obtain ⟨e1, e2, e3, -⟩ := gen_ttf_darken_fields st d1 d2
        refine darkenInv_congr _ st ?_ ?_ ?_ h <;> simp [step, hg, e1, e2, e3]
      · refine darkenInv_congr _ st ?_ ?_ ?_ h <;> simp [step, hg]
  | procStarted =>
      refine darkenInv_congr _ st ?_ ?_ ?_ h <;>
        · simp only [step]
          split_ifs <;> rfl
  | readyRead c =>
      exact darkenInv_congr _ st rfl rfl rfl h
  | procFinished code =>
      exact darkenInv_congr _ st rfl rfl rfl h

theorem darkenInv_run : ∀ (es : List Event) (st : State),
    darkenInv st → darkenInv (run st es)
  | [], _, h => h
  | e :: es, st, h => darkenInv_run es (step st e) (darkenInv_step st e h)

theorem darkenInv_init (env : List (String × String)) (d : String) :
    darkenInv (init_state env d) := by
  refine darkenInv_congr _
    { rows := [initRow, initRow, initRow, initRow], font_files := [],
      font_info := {}, new_fnt_name := "", gen_btn := false,
      darken_opt := false, mod_bearing_chk := false, mod_bearing_enabled := false,
      slider := 12, slider_enabled := false, darken_amount_lab := "12",
      ff_path := "", log_win := [], proc := QProcState.notRunning, cmd := none }
    ?_ ?_ ?_ (by intro hd; exact ⟨rfl, rfl⟩) <;>
    · unfold init_state set_ff_path
      by_cases h1 : (which env "fontforge").getD "" = "" <;> by_cases h2 : d = "" <;>
        simp [h1, h2]

/-- `gen_ttf` never overwrites a cached non-empty fontforge path. -/
theorem gen_ttf_ff_path (st : State) (d1 d2 : String) (h : st.ff_path ≠ "") :
    (gen_ttf st d1 d2).ff_path = st.ff_path := by
  obtain ⟨rows, ffs, fi, name, btn, dop, mbc, mbe, sl, sle, lab, ffp, log, prc, c⟩ := st
  unfold gen_ttf set_ff_path proc_start
  simp only at h
  simp only [h, ite_false, ite_true, if_neg, not_false_iff]
  (try split_ifs) <;> simp_all

theorem step_ff_path (st : State) (e : Event) (h : st.ff_path ≠ "") :
    (step st e).ff_path = st.ff_path := by
  cases e with
  | editName n =>
      simp only [step]
      unfold set_family_name
      by_cases h1 : n = "" <;> by_cases h2 : valid_filename n <;>
        by_cases h3 : st.font_files = [] <;> simp [h1, h2, h3]
  | loadFonts ps =>
      simp only [step]
      unfold load_fonts
      by_cases h1 : ps = [] <;> by_cases h2 : st.new_fnt_name = "" <;> simp [h1, h2]
  | clickDarken =>
      simp only [step]
      unfold click_darken set_darken_opt set_darken_amount
      cases hdo : st.darken_opt <;> simp [hdo]
  | clickModBearing =>
      simp only [step]
      unfold click_mod_bearing set_mod_bearing
      split_ifs <;> rfl
  | moveSlider v =>
      simp only [step]
      unfold set_darken_amount
      split_ifs <;> rfl
  | clickGen d1 d2 =>
      simp only [step]
      split_ifs with hg
      · exact gen_ttf_ff_path st d1 d2 h
      · rfl
  | procStarted =>
      simp only [step]
      split_ifs <;> rfl
  | readyRead c => rfl
  | procFinished code => rfl

theorem run_ff_path : ∀ (es : List Event) (st : State), st.ff_path ≠ "" →
    (run st es).ff_path = st.ff_path
  | [], _, _ => rfl
  | e :: es, st, h => by
      have hs := step_ff_path st e h
      have hne : (step st e).ff_path ≠ "" := by rw [hs]; exact h
      calc (run (step st e) es).ff_path = (step st e).ff_path := run_ff_path es _ hne
        _ = st.ff_path := hs

/-- `gen_ttf` reads the selected files only through
`zip(self.font_files, self.fnt_sty_combo_list)`: two selections with the
same zip against the grid rows produce the same generation behaviour. -/
theorem gen_ttf_set_font_files (a : State) (fs : List String) (d1 d2 : String)
    (hzip : fs.zip (a.rows.map GuiFileRow.styleIdx)
          = a.font_files.zip (a.rows.map GuiFileRow.styleIdx)) :
    gen_ttf { a with font_files := fs } d1 d2
      = { gen_ttf a d1 d2 with font_files := fs } := by
  obtain ⟨rows, ffs, fi, name, btn, dop, mbc, mbe, sl, sle, lab, ffp, log, prc, c⟩ := a
  simp only at hzip
  unfold gen_ttf set_ff_path proc_start
  by_cases h1 : ffp = "" <;> by_cases h2 : d1 = "" <;>
    by_cases h3 : d2 = "." ∨ d2 = "" <;>
    by_cases h4 : prc = QProcState.notRunning <;>
    simp [h1, h2, h3, h4, hzip, normpath]

theorem deliver_eq : ∀ (chunks log : List String), deliver log chunks = log ++ chunks
  | [], log => by simp [deliver]
  | c :: cs, log => by
      calc deliver log (c :: cs) = deliver (log ++ [c]) cs := rfl
        _ = (log ++ [c]) ++ cs := deliver_eq cs (log ++ [c])
        _ = log ++ (c :: cs) := by simp

/-- Loading only the first four of a selection differs from loading the
whole selection only in the stored `font_files` list. -/
theorem load_fonts_take4 (st : State) (paths : List String) (h : paths ≠ [])
    (h4 : paths.take 4 ≠ []) :
    load_fonts st (paths.take 4) = { load_fonts st paths with font_files := paths.take 4 } := by
  rw [load_fonts_eq st paths h, load_fonts_eq st (paths.take 4) h4]
  simp [List.map_take, rowsAfterLoad_take]

/-! ## Claims -/

/-- C1 (counterexample): the claim orders the classifier checks as
bold+italic, bold, italic, regular — so a filename containing all of
"regular", "bold" and "italic" would classify BoldItalic.  The code checks
"regular" first (src line 342): loading such a file assigns Regular. -/
theorem c1_counterexample :
    ((load_fonts (init_state [("fontforge", "/usr/bin/fontforge")] "")
        ["Foo-Regular-Bold-Italic.ttf"]).rows.map GuiFileRow.styleIdx).head?
      = some SEL_REGULAR
    ∧ SEL_REGULAR ≠ SEL_BOLDITALIC := by decide

/-- C1 (amended): for every loaded font file, the classifier inspects only
the filename component, case-insensitively, and assigns by strict
priority: containing "regular" gives Regular; else containing both "bold"
and "italic" gives BoldItalic; else containing "bold" gives Bold; else
containing "italic" gives Italic; otherwise the slot stays Unassigned.  In
particular a filename containing all of "regular", "bold" and "italic" is
classified Regular. -/
theorem c1_theorem (st : State) (paths : List String) (hne : paths ≠ []) :
    (((load_fonts st paths).rows.map GuiFileRow.styleIdx).take ((paths.take 4).length)
        = (paths.take 4).map (fun p => classifyFile (os_path_split (normpath p)).2))
    ∧ (∀ f, strIn "regular" f = true → classifyFile f = SEL_REGULAR)
    ∧ (∀ f, strIn "regular" f = false → strIn "bold" f = true → strIn "italic" f = true →
        classifyFile f = SEL_BOLDITALIC)
    ∧ (∀ f, strIn "regular" f = false → strIn "bold" f = true → strIn "italic" f = false →
        classifyFile f = SEL_BOLD)
    ∧ (∀ f, strIn "regular" f = false → strIn "bold" f = false → strIn "italic" f = true →
        classifyFile f = SEL_ITALIC)
    ∧ (∀ f, strIn "regular" f = false → strIn "bold" f = false → strIn "italic" f = false →
        classifyFile f = SEL_NONE)
    ∧ (∀ f g, lowerData f = lowerData g → classifyFile f = classifyFile g) := by
  refine ⟨?_, ?_, ?_, ?_, ?_, ?_, ?_⟩
  · rw [load_fonts_eq st paths hne]
    show ((rowsAfterLoad _).map GuiFileRow.styleIdx).take _ = _
    rw [rowsAfterLoad_styles]
    have hlen : (((paths.map (fun f => (os_path_split (normpath f)).2)).take 4).map
        classifyFile).length = (paths.take 4).length := by
      simp [List.length_take]
    rw [← hlen, List.take_left, ← List.map_take, List.map_map]
    rfl
  · intro f h
    simp [classifyFile, h]
  · intro f h1 h2 h3
    simp [classifyFile, h1, h2, h3]
  · intro f h1 h2 h3
    simp [classifyFile, h1, h2, h3]
  · intro f h1 h2 h3
    simp [classifyFile, h1, h2, h3]
  · intro f h1 h2 h3
    simp [classifyFile, h1, h2, h3]
  · intro f g hfg
    unfold classifyFile strIn
    rw [hfg]

/-- C1 (witness): the amended theorem applied to a concrete state and a
concrete bold-only filename. -/
theorem c1_witness : classifyFile "A-Bold.ttf" = SEL_BOLD :=
  (c1_theorem (init_state [] "x") ["A-Bold.ttf"] (by decide)).2.2.2.1
    "A-Bold.ttf" (by decide) (by decide) (by decide)

/-- C2 (counterexample): the claim says completion ends in Succeeded
exactly for exit code zero, otherwise in Failed(NonZeroExit(code)), with a
terminal notification carrying the exit code.  The `finished` handler
`manage_proc` never reads the exit code: exit code 2 and exit code 0
produce identical subscriber-visible outcomes, so no such distinction is
made. -/
theorem c2_counterexample :
    on_finished 2 ⟨0, 100, 0⟩ = on_finished 0 ⟨0, 100, 0⟩
    ∧ on_finished 2 ⟨0, 100, 0⟩ = ⟨0, 100, 100⟩ := by decide

/-- C2 (amended): when the child exits, the handler sets the progress bar
to the completed state (range 0-100, value 100) regardless of the exit
code; the exit code is never read and no success/failure distinction or
exit code is delivered to the subscriber. -/
theorem c2_theorem (code : Int) (bar : ProgBar) :
    on_finished code bar = ⟨0, 100, 100⟩ := by
  simp [on_finished, manage_proc]

/-- C3 (counterexample): the invariant modifyBearings ⇒ darkenEnabled is
not maintained.  Enabling darkening, checking modify-bearings, then
disabling darkening leaves the stored `mod_bearings` flag true while the
darken checkbox is unchecked: the flag is not forced false. -/
theorem c3_counterexample :
    ((run (init_state [("fontforge", "/usr/bin/fontforge")] "")
        [Event.clickDarken, Event.clickModBearing, Event.clickDarken]).darken_opt = false)
    ∧ ((run (init_state [("fontforge", "/usr/bin/fontforge")] "")
        [Event.clickDarken, Event.clickModBearing,
         Event.clickDarken]).font_info.mod_bearings = true) := by decide

/-- C3 (amended): disabling darkening disables the modify-bearings
checkbox (preventing further edits) and resets the stored weight to zero,
but the stored `mod_bearings` flag is left unchanged — it may remain true
while darkening is disabled. -/
theorem c3_theorem (st : State) (h : st.darken_opt = true) :
    (click_darken st).darken_opt = false
    ∧ (click_darken st).font_info.mod_bearings = st.font_info.mod_bearings
    ∧ (click_darken st).font_info.add_weight = 0
    ∧ (click_darken st).mod_bearing_enabled = false := by
  unfold click_darken set_darken_opt set_darken_amount
  simp [h]

/-- C3 (witness): the amended theorem applied to the state reached by
checking the darken box once. -/
theorem c3_witness :
    (click_darken (run (init_state [("fontforge", "/usr/bin/fontforge")] "")
        [Event.clickDarken])).darken_opt = false
    ∧ (click_darken (run (init_state [("fontforge", "/usr/bin/fontforge")] "")
        [Event.clickDarken])).font_info.mod_bearings
      = (run (init_state [("fontforge", "/usr/bin/fontforge")] "")
        [Event.clickDarken]).font_info.mod_bearings
    ∧ (click_darken (run (init_state [("fontforge", "/usr/bin/fontforge")] "")
        [Event.clickDarken])).font_info.add_weight = 0
    ∧ (click_darken (run (init_state [("fontforge", "/usr/bin/fontforge")] "")
        [Event.clickDarken])).mod_bearing_enabled = false :=
  c3_theorem (run (init_state [("fontforge", "/usr/bin/fontforge")] "")
    [Event.clickDarken]) (by decide)

/-- C4: in every reachable session state in which the darken checkbox is
unchecked, the built command contains neither `--darken` nor
`--fix-bearings`, whatever slider value and bearing flag are stored
(provided the configuration's own free strings — family name, file paths,
output directory — are not themselves these flag literals); moreover the
darken section of the command is empty, so the amount is absent rather
than transmitted as zero. -/
theorem c4_theorem (env : List (String × String)) (d : String) (es : List Event)
    (hd : (run (init_state env d) es).darken_opt = false)
    (h1 : "--darken" ∉ ((run (init_state env d) es).font_info).freeStrings)
    (h2 : "--fix-bearings" ∉ ((run (init_state env d) es).font_info).freeStrings) :
    darkenArgs (run (init_state env d) es).font_info = []
    ∧ "--darken" ∉ ((run (init_state env d) es).font_info).gen_cli_command
    ∧ "--fix-bearings" ∉ ((run (init_state env d) es).font_info).gen_cli_command := by
  have h0 : (run (init_state env d) es).font_info.add_weight = 0 :=
    (darkenInv_run es _ (darkenInv_init env d) hd).1
  refine ⟨darkenArgs_zero h0, ?_, ?_⟩
  · intro hx
    rcases gen_cli_mem_no_darken _ h0 _ hx with hfix | hfree
    · revert hfix
      decide
    · exact h1 hfree
  · intro hx
    rcases gen_cli_mem_no_darken _ h0 _ hx with hfix | hfree
    · revert hfix
      decide
    · exact h2 hfree

/-- C4 (witness): the theorem applied to the session that enables
darkening, checks modify-bearings, then disables darkening — the stored
bearing flag is still true and the slider still holds its value, yet the
command has no darken section. -/
theorem c4_witness :
    darkenArgs (run (init_state [("fontforge", "/usr/bin/fontforge")] "")
        [Event.clickDarken, Event.clickModBearing, Event.clickDarken]).font_info = []
    ∧ "--darken" ∉ ((run (init_state [("fontforge", "/usr/bin/fontforge")] "")
        [Event.clickDarken, Event.clickModBearing, Event.clickDarken]).font_info).gen_cli_command
    ∧ "--fix-bearings" ∉ ((run (init_state [("fontforge", "/usr/bin/fontforge")] "")
        [Event.clickDarken, Event.clickModBearing,
         Event.clickDarken]).font_info).gen_cli_command :=
  c4_theorem [("fontforge", "/usr/bin/fontforge")] ""
    [Event.clickDarken, Event.clickModBearing, Event.clickDarken]
    (by decide) (by decide) (by decide)

/-- C5 (counterexample): per-slot uniqueness does not hold when a
generation request is accepted.  Two files whose names both contain "bold"
are both classified Bold, and generation is accepted (the external process
is started) with both entries still assigned Bold; the second file
overwrites the first in the `FontInfo` used for the command. -/
theorem c5_counterexample :
    ((run (init_state [("fontforge", "/usr/bin/fontforge")] "")
        [Event.editName "MyFont", Event.loadFonts ["A-bold.ttf", "B-bold.ttf"]]).rows.map
        GuiFileRow.styleIdx = [SEL_BOLD, SEL_BOLD, SEL_NONE, SEL_NONE])
    ∧ ((run (init_state [("fontforge", "/usr/bin/fontforge")] "")
        [Event.editName "MyFont", Event.loadFonts ["A-bold.ttf", "B-bold.ttf"],
         Event.clickGen "x" "/out"]).proc = QProcState.starting)
    ∧ ((run (init_state [("fontforge", "/usr/bin/fontforge")] "")
        [Event.editName "MyFont", Event.loadFonts ["A-bold.ttf", "B-bold.ttf"],
         Event.clickGen "x" "/out"]).font_info.font_file_bd = some "B-bold.ttf") := by decide

/-- C5 (amended): a StyleSlot may appear on several entries when
generation is accepted; the assignment loop in `gen_ttf` walks the entries
left to right, so the last entry carrying a given slot determines the file
stored for that slot. -/
theorem c5_theorem (fi : FontInfo) (pairs : List (String × Nat)) (f : String) :
    (assign_files fi (pairs ++ [(f, SEL_REGULAR)])).font_file_reg = some f
    ∧ (assign_files fi (pairs ++ [(f, SEL_BOLDITALIC)])).font_file_bi = some f
    ∧ (assign_files fi (pairs ++ [(f, SEL_BOLD)])).font_file_bd = some f
    ∧ (assign_files fi (pairs ++ [(f, SEL_ITALIC)])).font_file_it = some f := by
  unfold assign_files
  simp [List.foldl_append, assign_step, SEL_REGULAR, SEL_BOLDITALIC, SEL_BOLD, SEL_ITALIC]

/-- C6 (counterexample): generation is accepted without any assigned slot
and without a valid family name.  Loading a tokenless file leaves all four
slots Unassigned, yet the process starts; and after typing the invalid
name "My/Font" (which the validator rejects), merely re-loading fonts
re-enables generation and the process starts. -/
theorem c6_counterexample :
    ((run (init_state [("fontforge", "/usr/bin/fontforge")] "")
        [Event.editName "MyFont", Event.loadFonts ["foo.ttf"]]).rows.map GuiFileRow.styleIdx
      = [SEL_NONE, SEL_NONE, SEL_NONE, SEL_NONE])
    ∧ ((run (init_state [("fontforge", "/usr/bin/fontforge")] "")
        [Event.editName "MyFont", Event.loadFonts ["foo.ttf"],
         Event.clickGen "x" "/out"]).proc = QProcState.starting)
    ∧ valid_filename "My/Font" = false
    ∧ ((run (init_state [("fontforge", "/usr/bin/fontforge")] "")
        [Event.editName "My/Font", Event.loadFonts ["A-regular.ttf"],
         Event.clickGen "x" "/out"]).proc = QProcState.starting) := by decide

/-- C6 (amended): the generate button is enabled by `load_fonts` whenever
the family-name field is merely non-empty — the validator is applied only
in the name-edit handler, and no check requires any entry to have an
assigned slot; `set_family_name` disables the button on an invalid
non-empty name and enables it on a valid one when files are loaded. -/
theorem c6_theorem :
    (∀ (st : State) (paths : List String), paths ≠ [] → st.new_fnt_name ≠ "" →
      (load_fonts st paths).gen_btn = true)
    ∧ (∀ (st : State) (n : String), n ≠ "" → valid_filename n = false →
      (set_family_name st n).gen_btn = false)
    ∧ (∀ (st : State) (n : String), n ≠ "" → valid_filename n = true → st.font_files ≠ [] →
      (set_family_name st n).gen_btn = true) := by
  refine ⟨?_, ?_, ?_⟩
  · intro st paths h hn
    unfold load_fonts
    simp [h, hn]
  · intro st n hn hv
    unfold set_family_name
    simp [hn, hv]
  · intro st n hn hv hf
    unfold set_family_name
    simp [hn, hv, hf]

/-- C6 (witness): the amended theorem applied to concrete states — a
tokenless load with a non-empty name enables generation; an invalid edit
disables it. -/
theorem c6_witness :
    (load_fonts (run (init_state [("fontforge", "/usr/bin/fontforge")] "")
        [Event.editName "MyFont"]) ["foo.ttf"]).gen_btn = true
    ∧ (set_family_name (init_state [("fontforge", "/usr/bin/fontforge")] "")
        "My/Font").gen_btn = false :=
  ⟨c6_theorem.1 _ ["foo.ttf"] (by decide) (by decide),
   c6_theorem.2.1 _ "My/Font" (by decide) (by decide)⟩

/-- C7: while the child runs, its merged output channel is delivered to
the log window incrementally and append-only.  `read_proc_output` only
appends the newly available chunk, so the feed after any arrival sequence
is the previous feed followed by the chunks in arrival order, every
earlier feed state is a prefix of every later one, and any per-stream
subsequence of the arrival order (Qt's MergedChannels interleaves the two
standard streams preserving each stream's internal order) is preserved as
a subsequence of the delivered feed. -/
theorem c7_theorem (log chunks out : List String) (k : Nat)
    (h : List.Sublist out chunks) :
    deliver log chunks = log ++ chunks
    ∧ log <+: deliver log chunks
    ∧ deliver log (chunks.take k) <+: deliver log chunks
    ∧ List.Sublist out (deliver [] chunks) := by
  refine ⟨deliver_eq chunks log, ?_, ?_, ?_⟩
  · rw [deliver_eq]
    exact List.prefix_append log chunks
  · rw [deliver_eq, deliver_eq]
    exact ⟨chunks.drop k, by rw [List.append_assoc, List.take_append_drop]⟩
  · rw [deliver_eq]
    simpa using h

/-- C7 (witness): the theorem at a concrete feed — two chunks arriving on
the merged channel, with the first stream's chunk subsequence. -/
theorem c7_witness :
    deliver ["a"] ["b", "c"] = ["a"] ++ ["b", "c"]
    ∧ ["a"] <+: deliver ["a"] ["b", "c"]
    ∧ deliver ["a"] (["b", "c"].take 1) <+: deliver ["a"] ["b", "c"]
    ∧ List.Sublist ["c"] (deliver [] ["b", "c"]) :=
  c7_theorem ["a"] ["b", "c"] ["c"] 1
    ((List.sublist_cons_self "b" ["c"]).trans (List.Sublist.refl ["b", "c"]))

/-- C8 (counterexample): the claim says a start while a job is Running
fails immediately with ProcessBusy and leaves the in-flight job's state
unchanged.  The code performs no busy check: clicking generate during a
running job clears the log window (altering the in-flight job's observable
state) and reports no error of any kind. -/
theorem c8_counterexample :
    ((run (init_state [("fontforge", "/usr/bin/fontforge")] "")
        [Event.editName "MyFont", Event.loadFonts ["A-regular.ttf"],
         Event.clickGen "x" "/out", Event.procStarted,
         Event.readyRead "output"]).proc = QProcState.running)
    ∧ ((run (init_state [("fontforge", "/usr/bin/fontforge")] "")
        [Event.editName "MyFont", Event.loadFonts ["A-regular.ttf"],
         Event.clickGen "x" "/out", Event.procStarted,
         Event.readyRead "output"]).log_win = ["output"])
    ∧ ((run (init_state [("fontforge", "/usr/bin/fontforge")] "")
        [Event.editName "MyFont", Event.loadFonts ["A-regular.ttf"],
         Event.clickGen "x" "/out", Event.procStarted, Event.readyRead "output",
         Event.clickGen "x" "/out2"]).log_win = []) := by decide

/-- C8 (amended): invoking generation while a job is Running performs no
busy check and raises no error: the handler clears the log window and
updates the output directory (mutating observable state), while the
underlying `QProcess.start` is a no-op for the already-running process, so
the running job itself and the stored command are untouched and at most
one external process is active for the single QProcess instance. -/
theorem c8_theorem (st : State) (d1 d2 : String) (hrun : st.proc = QProcState.running)
    (hff : st.ff_path ≠ "") (hdot : d2 ≠ ".") (hemp : d2 ≠ "") :
    (gen_ttf st d1 d2).proc = QProcState.running
    ∧ (gen_ttf st d1 d2).cmd = st.cmd
    ∧ (gen_ttf st d1 d2).log_win = []
    ∧ (gen_ttf st d1 d2).font_info.out_dir = normpath d2 := by
  obtain ⟨rows, ffs, fi, name, btn, dop, mbc, mbe, sl, sle, lab, ffp, log, prc, c⟩ := st
  simp only at hrun hff
  unfold gen_ttf set_ff_path proc_start
  simp [hrun, hff, hdot, hemp, normpath, assign_files_out_dir]

/-- C8 (witness): the amended theorem applied to the reachable state in
which a job is running with accumulated output. -/
theorem c8_witness :
    (gen_ttf (run (init_state [("fontforge", "/usr/bin/fontforge")] "")
        [Event.editName "MyFont", Event.loadFonts ["A-regular.ttf"],
         Event.clickGen "x" "/out", Event.procStarted, Event.readyRead "output"])
        "x" "/out2").proc = QProcState.running
    ∧ (gen_ttf (run (init_state [("fontforge", "/usr/bin/fontforge")] "")
        [Event.editName "MyFont", Event.loadFonts ["A-regular.ttf"],
         Event.clickGen "x" "/out", Event.procStarted, Event.readyRead "output"])
        "x" "/out2").cmd
      = (run (init_state [("fontforge", "/usr/bin/fontforge")] "")
        [Event.editName "MyFont", Event.loadFonts ["A-regular.ttf"],
         Event.clickGen "x" "/out", Event.procStarted, Event.readyRead "output"]).cmd
    ∧ (gen_ttf (run (init_state [("fontforge", "/usr/bin/fontforge")] "")
        [Event.editName "MyFont", Event.loadFonts ["A-regular.ttf"],
         Event.clickGen "x" "/out", Event.procStarted, Event.readyRead "output"])
        "x" "/out2").log_win = []
    ∧ (gen_ttf (run (init_state [("fontforge", "/usr/bin/fontforge")] "")
        [Event.editName "MyFont", Event.loadFonts ["A-regular.ttf"],
         Event.clickGen "x" "/out", Event.procStarted, Event.readyRead "output"])
        "x" "/out2").font_info.out_dir = normpath "/out2" :=
  c8_theorem (run (init_state [("fontforge", "/usr/bin/fontforge")] "")
      [Event.editName "MyFont", Event.loadFonts ["A-regular.ttf"],
       Event.clickGen "x" "/out", Event.procStarted, Event.readyRead "output"])
    "x" "/out2" (by decide) (by decide) (by decide) (by decide)

/-- C9: the fontforge locator runs once at window construction; when the
search fails, the user-supplied dialog path is accepted (any non-empty
string, with no executability test) and its normalised form is cached;
thereafter no session event — including later generation requests —
replaces the cached non-empty path. -/
theorem c9_theorem (env : List (String × String)) (d : String) (es : List Event)
    (st : State) :
    (which env "fontforge" = none → d ≠ "" → (init_state env d).ff_path = normpath d)
    ∧ (st.ff_path ≠ "" → (run st es).ff_path = st.ff_path) := by
  constructor
  · intro hw hd
    unfold init_state set_ff_path
    simp [hw, hd]
  · exact fun h => run_ff_path es st h

/-- C9 (witness): the theorem at a concrete session — an environment
without fontforge and a user-supplied path, and preservation of a cached
path across an event. -/
theorem c9_witness :
    (init_state [] "/opt/fontforge").ff_path = normpath "/opt/fontforge"
    ∧ (run (init_state [("fontforge", "/usr/bin/fontforge")] "")
        [Event.clickDarken]).ff_path
      = (init_state [("fontforge", "/usr/bin/fontforge")] "").ff_path :=
  ⟨(c9_theorem [] "/opt/fontforge" [] (init_state [] "/opt/fontforge")).1
      (by decide) (by decide),
   (c9_theorem [] "" [Event.clickDarken]
      (init_state [("fontforge", "/usr/bin/fontforge")] "")).2 (by decide)⟩

/-- C10: when more than four files are selected, loading and generation
behave exactly as if only the first four had been selected: the grid rows
(labels and slots) and the generate-button state agree, and a subsequent
generation request produces the same `FontInfo` assignment, process state
and command — files beyond the fourth are never assigned, silently
ignored rather than rejected. -/
theorem c10_theorem (st : State) (paths : List String) (d1 d2 : String)
    (h4 : 4 < paths.length) :
    (load_fonts st (paths.take 4)).rows = (load_fonts st paths).rows
    ∧ (load_fonts st (paths.take 4)).gen_btn = (load_fonts st paths).gen_btn
    ∧ (gen_ttf (load_fonts st (paths.take 4)) d1 d2).font_info
        = (gen_ttf (load_fonts st paths) d1 d2).font_info
    ∧ (gen_ttf (load_fonts st (paths.take 4)) d1 d2).proc
        = (gen_ttf (load_fonts st paths) d1 d2).proc
    ∧ (gen_ttf (load_fonts st (paths.take 4)) d1 d2).cmd
        = (gen_ttf (load_fonts st paths) d1 d2).cmd := by
  have hne : paths ≠ [] := by
    intro h
    rw [h] at h4
    simp at h4
  have hlen4 : (paths.take 4).length = 4 := by
    rw [List.length_take]
    omega
  have hne4 : paths.take 4 ≠ [] := by
    intro h
    rw [h] at hlen4
    simp at hlen4
  have hkey : load_fonts st (paths.take 4)
      = { load_fonts st paths with font_files := paths.take 4 } :=
    load_fonts_take4 st paths hne hne4
  have hff : (load_fonts st paths).font_files = paths := by
    rw [load_fonts_eq st paths hne]
  have hlen : ((load_fonts st paths).rows.map GuiFileRow.styleIdx).length = 4 := by
    rw [load_fonts_eq st paths hne]
    show ((rowsAfterLoad _).map GuiFileRow.styleIdx).length = 4
    rw [List.length_map, rowsAfterLoad_length]
  have hzip : (paths.take 4).zip ((load_fonts st paths).rows.map GuiFileRow.styleIdx)
      = (load_fonts st paths).font_files.zip
          ((load_fonts st paths).rows.map GuiFileRow.styleIdx) := by
    rw [hff, ← hlen, zip_take_len]
  have hgen := gen_ttf_set_font_files (load_fonts st paths) (paths.take 4) d1 d2 hzip
  rw [hkey, hgen]
  exact ⟨rfl, rfl, rfl, rfl, rfl⟩

/-- C10 (witness): the theorem at a five-file selection. -/
theorem c10_witness :
    (load_fonts (init_state [("fontforge", "/usr/bin/fontforge")] "")
        (["a.ttf", "b.ttf", "c.ttf", "d.ttf", "e.ttf"].take 4)).rows
      = (load_fonts (init_state [("fontforge", "/usr/bin/fontforge")] "")
        ["a.ttf", "b.ttf", "c.ttf", "d.ttf", "e.ttf"]).rows
    ∧ (load_fonts (init_state [("fontforge", "/usr/bin/fontforge")] "")
        (["a.ttf", "b.ttf", "c.ttf", "d.ttf", "e.ttf"].take 4)).gen_btn
      = (load_fonts (init_state [("fontforge", "/usr/bin/fontforge")] "")
        ["a.ttf", "b.ttf", "c.ttf", "d.ttf", "e.ttf"]).gen_btn
    ∧ (gen_ttf (load_fonts (init_state [("fontforge", "/usr/bin/fontforge")] "")
        (["a.ttf", "b.ttf", "c.ttf", "d.ttf", "e.ttf"].take 4)) "x" "/out").font_info
      = (gen_ttf (load_fonts (init_state [("fontforge", "/usr/bin/fontforge")] "")
        ["a.ttf", "b.ttf", "c.ttf", "d.ttf", "e.ttf"]) "x" "/out").font_info
    ∧ (gen_ttf (load_fonts (init_state [("fontforge", "/usr/bin/fontforge")] "")
        (["a.ttf", "b.ttf", "c.ttf", "d.ttf", "e.ttf"].take 4)) "x" "/out").proc
      = (gen_ttf (load_fonts (init_state [("fontforge", "/usr/bin/fontforge")] "")
        ["a.ttf", "b.ttf", "c.ttf", "d.ttf", "e.ttf"]) "x" "/out").proc
    ∧ (gen_ttf (load_fonts (init_state [("fontforge", "/usr/bin/fontforge")] "")
        (["a.ttf", "b.ttf", "c.ttf", "d.ttf", "e.ttf"].take 4)) "x" "/out").cmd
      = (gen_ttf (load_fonts (init_state [("fontforge", "/usr/bin/fontforge")] "")
        ["a.ttf", "b.ttf", "c.ttf", "d.ttf", "e.ttf"]) "x" "/out").cmd :=
  c10_theorem (init_state [("fontforge", "/usr/bin/fontforge")] "")
    ["a.ttf", "b.ttf", "c.ttf", "d.ttf", "e.ttf"] "x" "/out" (by decide)

end ReadifyFont
